import Mathlib

/-!
Verification development for the Pacific EMIS disability-inclusive education
access-control core.

The definitions below are a shallow embedding of the Python source:

* data model from core/models.py and integrations/models.py
  (Django rows become structures; nullable columns become Option;
  dates become Nat day-ordinals; the 20 questionnaire columns on an
  enrolment are omitted because no property below reads them);
* role and permission functions from core/permissions.py;
* group-choice logic of the staff / system-user forms from core/forms.py;
* the student creation transaction and the fuzzy duplicate matcher from
  core/views.py.

Modelling conventions:

* A Django user value of None and an unauthenticated user are collapsed
  into one case (is_authenticated = false): every permission function in
  the source guards with "if not user or not user.is_authenticated" and
  treats both identically.  Form code that only checks "if user:" is
  modelled on Option AuthUser where the distinction matters.
* Querysets become lists; .exists() becomes not-isEmpty; .distinct()
  becomes filtering a table whose rows are unique, or List.dedup.
* Floats are modelled by integers at a fixed scale: the rapidfuzz
  partial ratio is an abstract integer-valued metric in [0, 100], a name
  similarity is measured in thousandths (ratio / 100.0 becomes 10 * ratio),
  and a combined match score in ten-thousandths, so the weights 0.6 / 0.4
  become the integer coefficients 6 / 4 and the threshold 0.80 becomes 8000.
  This scaling is order-isomorphic to the float computation.
* String lowering and stripping are modelled on the character list of the
  string (the built-in String.toLower / String.trim are opaque to kernel
  evaluation), with ASCII semantics.
-/

namespace PacificEMIS

/-! ## Data model (integrations/models.py, core/models.py, auth user) -/

/-- Authenticated identity (django.contrib.auth user): superuser flag plus
group names. -/
structure AuthUser where
  id : Nat
  is_authenticated : Bool
  is_superuser : Bool
  groups : List String
deriving DecidableEq

/-- integrations.models.EmisSchool.  In the source the school number is
the primary key, so pk and emis_school_no coincide; the embedding keeps
them as two fields and never relies on their equality (identifiers are
modelled as numbers; only equality of identifiers is ever used). -/
structure EmisSchool where
  pk : Nat
  emis_school_no : Nat
  emis_school_name : String
  active : Bool
deriving DecidableEq

/-- core.models.SchoolStaff: one-to-one staff profile of a user. -/
structure SchoolStaff where
  pk : Nat
  user : AuthUser
  staff_type : String
deriving DecidableEq

/-- core.models.SchoolStaffAssignment: links a SchoolStaff (by pk) to an
EmisSchool (by pk) with an optional validity window. -/
structure SchoolStaffAssignment where
  pk : Nat
  school_staff : Nat
  school : Nat
  job_title : Nat
  start_date : Option Nat
  end_date : Option Nat
deriving DecidableEq

/-- Modelled from the spec: the school-year model (EmisWarehouseYear) is
imported by core/models.py from integrations.models but its class is not
in the provided integrations source; per the spec a School Year is an
entity whose code orders years (highest code = newest), so it is embedded
as a pk plus a numeric code. -/
structure SchoolYear where
  pk : Nat
  code : Nat
deriving DecidableEq

/-- core.models.Student: demographic data only, no direct school reference. -/
structure Student where
  pk : Nat
  first_name : String
  last_name : String
  date_of_birth : Option Nat
  gender : Option String
deriving DecidableEq

/-- core.models.StudentSchoolEnrolment: links a Student (by pk) to an
EmisSchool (by pk) for a SchoolYear, with an optional date window.
The 20 questionnaire answer columns are omitted (never read here). -/
structure StudentSchoolEnrolment where
  pk : Nat
  student : Nat
  school : Nat
  school_year : SchoolYear
  class_level : Nat
  start_date : Option Nat
  end_date : Option Nat
deriving DecidableEq

/-- The relational state the permission layer reads. -/
structure DB where
  schools : List EmisSchool
  school_staffs : List SchoolStaff
  assignments : List SchoolStaffAssignment
  students : List Student
  enrolments : List StudentSchoolEnrolment
deriving DecidableEq

/-! ## Role helpers (core/permissions.py) -/

/-- Group name constants (permissions.py, single source of truth). -/
def GROUP_ADMINS : String := "Admins"

def GROUP_SCHOOL_ADMINS : String := "School Admins"

def GROUP_SCHOOL_STAFF : String := "School Staff"

def GROUP_TEACHERS : String := "Teachers"

def GROUP_SYSTEM_ADMINS : String := "System Admins"

def GROUP_SYSTEM_STAFF : String := "System Staff"

/-- permissions._in_group: membership in one named group. -/
def _in_group (user : AuthUser) (group_name : String) : Bool :=
  user.is_authenticated && user.groups.contains group_name

/-- permissions._in_any_group: membership in any of the named groups. -/
def _in_any_group (user : AuthUser) (group_names : List String) : Bool :=
  user.is_authenticated && group_names.any (fun g => user.groups.contains g)

/-- permissions.is_admin: superuser, or member of Admins or System Admins. -/
def is_admin (user : AuthUser) : Bool :=
  if !user.is_authenticated then false
  else if user.is_superuser then true
  else _in_any_group user [GROUP_ADMINS, GROUP_SYSTEM_ADMINS]

/-- permissions.is_admins_group: superuser or member of the Admins group. -/
def is_admins_group (user : AuthUser) : Bool :=
  if !user.is_authenticated then false
  else if user.is_superuser then true
  else _in_group user GROUP_ADMINS

/-- permissions.is_school_staff. -/
def is_school_staff (user : AuthUser) : Bool :=
  _in_group user GROUP_SCHOOL_STAFF

/-- permissions.is_school_admin. -/
def is_school_admin (user : AuthUser) : Bool :=
  _in_group user GROUP_SCHOOL_ADMINS

/-- permissions.is_teacher. -/
def is_teacher (user : AuthUser) : Bool :=
  _in_group user GROUP_TEACHERS

/-- permissions.is_system_staff. -/
def is_system_staff (user : AuthUser) : Bool :=
  _in_group user GROUP_SYSTEM_STAFF

/-! ## User to school affiliation (core/permissions.py) -/

/-- hasattr(user, "school_staff"): the user owns a SchoolStaff profile. -/
def hasSchoolStaffProfile (db : DB) (user : AuthUser) : Bool :=
  db.school_staffs.any (fun p => p.user.id == user.id)

/-- permissions.get_user_schools: the schools for which the user has a
SchoolStaffAssignment without end date, via the SchoolStaff profile join. -/
def get_user_schools (db : DB) (user : AuthUser) : List EmisSchool :=
  if !user.is_authenticated then []
  else if !hasSchoolStaffProfile db user then []
  else
    db.schools.filter (fun s =>
      db.assignments.any (fun a =>
        a.school == s.pk && a.end_date.isNone &&
          db.school_staffs.any (fun p => p.pk == a.school_staff && p.user.id == user.id)))

/-! ## SchoolStaff permissions (core/permissions.py) -/

/-- permissions.user_has_school_access_to_staff: row-level rule requiring a
shared active school between the user and the staff member. -/
def user_has_school_access_to_staff (db : DB) (user : AuthUser) (staff : SchoolStaff) : Bool :=
  if !user.is_authenticated then false
  else if user.is_superuser || is_admin user then true
  else
    let user_schools := get_user_schools db user
    if user_schools.isEmpty then false
    else
      let staff_schools := get_user_schools db staff.user
      if staff_schools.isEmpty then false
      else staff_schools.any (fun s => user_schools.any (fun t => t.pk == s.pk))

/-- permissions.can_view_staff. -/
def can_view_staff (db : DB) (user : AuthUser) (staff : SchoolStaff) : Bool :=
  if !user.is_authenticated then false
  else if user.is_superuser || is_admin user || is_system_staff user then true
  else if is_school_admin user || is_school_staff user || is_teacher user then
    user_has_school_access_to_staff db user staff
  else false

/-- A SchoolStaff list row as produced by the staff list view, carrying the
latest_school_no annotation (school number of the latest assignment, or
null when the staff member has no assignment). -/
structure AnnotatedStaffRow where
  staff : SchoolStaff
  latest_school_no : Option Nat
deriving DecidableEq

/-- permissions.filter_staff_for_user: row-level restriction of the staff
list queryset. -/
def filter_staff_for_user (db : DB) (qs : List AnnotatedStaffRow) (user : AuthUser) :
    List AnnotatedStaffRow :=
  if !user.is_authenticated then []
  else if user.is_superuser || is_admin user || is_system_staff user then qs
  else if !(is_school_admin user || is_school_staff user || is_teacher user) then []
  else
    let user_schools := get_user_schools db user
    if user_schools.isEmpty then []
    else
      let allowed_school_nos := user_schools.map (fun s => s.emis_school_no)
      if allowed_school_nos.isEmpty then []
      else
        qs.filter (fun r =>
          match r.latest_school_no with
          | some n => allowed_school_nos.contains n
          | none => false)

/-- permissions.can_create_staff_assignment (target_school optional). -/
def can_create_staff_assignment (db : DB) (user : AuthUser)
    (target_school : Option EmisSchool) : Bool :=
  if !user.is_authenticated then false
  else if user.is_superuser || is_admin user then true
  else if is_school_admin user then
    match target_school with
    | none => true
    | some t => (get_user_schools db user).any (fun s => s.pk == t.pk)
  else false

/-- permissions.can_edit_staff_assignment. -/
def can_edit_staff_assignment (db : DB) (user : AuthUser)
    (assignment : SchoolStaffAssignment) : Bool :=
  if !user.is_authenticated then false
  else if user.is_superuser || is_admin user then true
  else if is_school_admin user then
    (get_user_schools db user).any (fun s => s.pk == assignment.school)
  else false

/-- permissions.can_delete_staff_assignment. -/
def can_delete_staff_assignment (db : DB) (user : AuthUser)
    (assignment : SchoolStaffAssignment) : Bool :=
  if !user.is_authenticated then false
  else if user.is_superuser || is_admin user then true
  else if is_school_admin user then
    (get_user_schools db user).any (fun s => s.pk == assignment.school)
  else false

/-! ## Student to school helpers (core/models.py, core/permissions.py) -/

/-- The reverse relation student.enrolments. -/
def studentEnrolments (db : DB) (student : Student) : List StudentSchoolEnrolment :=
  db.enrolments.filter (fun e => e.student == student.pk)

/-- Student.current_enrolments: enrolments whose end_date is null or at
least today. -/
def current_enrolments (db : DB) (today : Nat) (student : Student) :
    List StudentSchoolEnrolment :=
  (studentEnrolments db student).filter (fun e =>
    match e.end_date with
    | none => true
    | some d => today ≤ d)

/-- StudentSchoolEnrolment.is_active: end_date null or at least today. -/
def enrolment_is_active (e : StudentSchoolEnrolment) (today : Nat) : Bool :=
  match e.end_date with
  | none => true
  | some d => today ≤ d

/-- SchoolStaffAssignment.is_active: a simple flag, true exactly when
end_date is null (not date-range based). -/
def assignment_is_active (a : SchoolStaffAssignment) : Bool :=
  a.end_date.isNone

/-- Comparison of nullable start dates used by the descending order_by
(null sorts below every concrete date). -/
def optDateLt : Option Nat → Option Nat → Bool
  | none, none => false
  | none, some _ => true
  | some _, none => false
  | some a, some b => a < b

/-- The ordering key (school year code, start_date, pk) of the order_by in
get_effective_student_schools. -/
def enrolmentKey (e : StudentSchoolEnrolment) : Nat × Option Nat × Nat :=
  (e.school_year.code, e.start_date, e.pk)

/-- Strict lexicographic comparison of ordering keys. -/
def keyTripleLt (a b : Nat × Option Nat × Nat) : Bool :=
  a.1 < b.1 ||
    (a.1 == b.1 &&
      (optDateLt a.2.1 b.2.1 || (a.2.1 == b.2.1 && a.2.2 < b.2.2)))

/-- Strict ordering of enrolments by (school year code, start_date, pk),
the ascending counterpart of the order_by in get_effective_student_schools. -/
def enrolmentKeyLt (a b : StudentSchoolEnrolment) : Bool :=
  keyTripleLt (enrolmentKey a) (enrolmentKey b)

/-- Fold step selecting the later of two enrolments under enrolmentKeyLt. -/
def laterEnrolment (a b : StudentSchoolEnrolment) : StudentSchoolEnrolment :=
  if enrolmentKeyLt a b then b else a

/-- order_by("-school_year__code", "-start_date", "-pk").first(). -/
def latestEnrolment : List StudentSchoolEnrolment → Option StudentSchoolEnrolment
  | [] => none
  | e :: es => some (es.foldl laterEnrolment e)

/-- permissions.get_effective_student_schools, returning school pks: the
distinct schools of the current enrolments, else the school of the latest
enrolment, else nothing. -/
def get_effective_student_schools (db : DB) (today : Nat) (student : Student) :
    List Nat :=
  let current := current_enrolments db today student
  if !current.isEmpty then (current.map (fun e => e.school)).dedup
  else
    match latestEnrolment (studentEnrolments db student) with
    | none => []
    | some latest => [latest.school]

/-! ## Student permissions (core/permissions.py) -/

/-- permissions.user_has_school_access_to_student. -/
def user_has_school_access_to_student (db : DB) (today : Nat) (user : AuthUser)
    (student : Student) : Bool :=
  if !user.is_authenticated then false
  else if user.is_superuser || is_admin user then true
  else
    let user_schools := get_user_schools db user
    if user_schools.isEmpty then false
    else
      let student_schools := get_effective_student_schools db today student
      if student_schools.isEmpty then false
      else student_schools.any (fun sp => user_schools.any (fun t => t.pk == sp))

/-- permissions.can_create_student. -/
def can_create_student (user : AuthUser) : Bool :=
  if !user.is_authenticated then false
  else if user.is_superuser || is_admin user then true
  else if is_school_admin user || is_teacher user then true
  else false

/-- permissions.can_view_student. -/
def can_view_student (db : DB) (today : Nat) (user : AuthUser) (student : Student) : Bool :=
  if !user.is_authenticated then false
  else if user.is_superuser || is_admin user || is_system_staff user then true
  else if is_school_admin user || is_school_staff user || is_teacher user then
    user_has_school_access_to_student db today user student
  else false

/-- permissions.can_edit_student. -/
def can_edit_student (db : DB) (today : Nat) (user : AuthUser) (student : Student) : Bool :=
  if !user.is_authenticated then false
  else if user.is_superuser || is_admin user then true
  else if is_school_admin user || is_teacher user then
    user_has_school_access_to_student db today user student
  else false

/-- permissions.can_delete_student (the student argument is unused, as in
the source). -/
def can_delete_student (user : AuthUser) (_student : Student) : Bool :=
  if !user.is_authenticated then false
  else user.is_superuser || is_admin user

/-- A Student list row as produced by the student list view, carrying the
latest_school_no annotation from the latest enrolment. -/
structure AnnotatedStudentRow where
  student : Student
  latest_school_no : Option Nat
deriving DecidableEq

/-- permissions.filter_students_for_user: row-level restriction of the
student list queryset. -/
def filter_students_for_user (db : DB) (qs : List AnnotatedStudentRow) (user : AuthUser) :
    List AnnotatedStudentRow :=
  if !user.is_authenticated then []
  else if user.is_superuser || is_admin user || is_system_staff user then qs
  else if !(is_school_admin user || is_school_staff user || is_teacher user) then []
  else
    let user_schools := get_user_schools db user
    if user_schools.isEmpty then []
    else
      let allowed_school_nos := user_schools.map (fun s => s.emis_school_no)
      if allowed_school_nos.isEmpty then []
      else
        qs.filter (fun r =>
          match r.latest_school_no with
          | some n => allowed_school_nos.contains n
          | none => false)

/-! ## Form group choices (core/forms.py) -/

/-- Modelled from the spec: core/forms.py imports can_assign_admins_group
from core.permissions, but that function is not present in the provided
permissions source; per spec section 4.2, the gate for assigning the
Admins tag is is_admins_group_specifically, true exactly for a superuser
or a strict Admins member, which is is_admins_group. -/
def can_assign_admins_group (user : AuthUser) : Bool :=
  is_admins_group user

/-- SchoolStaffEditForm.__init__: the school-level group names offered by
the groups field (the Admins entry appears only for superusers and Admins
members). -/
def schoolStaffEditFormGroups (user : Option AuthUser) : List String :=
  let can_assign_admins :=
    match user with
    | none => false
    | some u => u.is_superuser || is_admins_group u
  if can_assign_admins then
    ["Admins", "School Admins", "School Staff", "Teachers"]
  else
    ["School Admins", "School Staff", "Teachers"]

/-- AssignSchoolStaffForm.__init__: school-level group names offered. -/
def assignSchoolStaffFormGroups (user : Option AuthUser) : List String :=
  let can_assign_admins :=
    match user with
    | none => false
    | some u => can_assign_admins_group u
  if can_assign_admins then
    ["Admins", "School Admins", "School Staff", "Teachers"]
  else
    ["School Admins", "School Staff", "Teachers"]

/-- AssignSystemUserForm.__init__: system-level group names offered. -/
def assignSystemUserFormGroups (user : Option AuthUser) : List String :=
  let can_assign_admins :=
    match user with
    | none => false
    | some u => can_assign_admins_group u
  if can_assign_admins then
    ["Admins", "System Admins", "System Staff"]
  else
    ["System Admins", "System Staff"]

/-- SystemUserEditForm.__init__: system-level group names offered. -/
def systemUserEditFormGroups (user : Option AuthUser) : List String :=
  let can_assign_admins :=
    match user with
    | none => false
    | some u => u.is_superuser || is_admins_group u
  if can_assign_admins then
    ["Admins", "System Admins", "System Staff"]
  else
    ["System Admins", "System Staff"]

/-- ModelMultipleChoiceField validation for the groups field: at least one
group, and every submitted group must belong to the restricted queryset. -/
def validateGroupChoices (allowed submitted : List String) : Bool :=
  !submitted.isEmpty && submitted.all (fun g => allowed.contains g)

/-! ## Student creation transaction (core/views.py student_new) -/

/-- The rows the student creation transaction writes. -/
structure CoreDB where
  students : List Student
  enrolments : List StudentSchoolEnrolment
deriving DecidableEq

/-- Insert of a StudentSchoolEnrolment row under the unique constraint
uq_student_school_year on (student, school, school_year): a duplicate
triple raises IntegrityError, leaving the row out. -/
def insertEnrolment (db : CoreDB) (e : StudentSchoolEnrolment) :
    Except String CoreDB :=
  if db.enrolments.any (fun x =>
      x.student == e.student && x.school == e.school &&
        x.school_year.pk == e.school_year.pk) then
    Except.error "uq_student_school_year"
  else
    Except.ok { db with enrolments := db.enrolments ++ [e] }

/-- views.student_new, creation path: inside transaction.atomic the Student
row and its first enrolment are inserted; on IntegrityError the whole
transaction rolls back (the returned state is the original one) and a
user-facing message is produced instead. -/
def student_new (db : CoreDB) (student : Student) (enrolment : StudentSchoolEnrolment) :
    CoreDB × Option String :=
  let db1 : CoreDB := { db with students := db.students ++ [student] }
  match insertEnrolment db1 enrolment with
  | Except.ok db2 => (db2, none)
  | Except.error _ =>
      (db, some "A similar enrolment already exists for that school and school year.")

/-! ## Fuzzy duplicate matcher (core/views.py) -/

/-- Python str.strip on the underlying characters (ASCII whitespace). -/
def isSpaceChar (c : Char) : Bool :=
  c == ' ' || c == '\t' || c == '\n' || c == '\r'

/-- Python str.strip of a query parameter. -/
def pyStrip (s : String) : String :=
  String.mk (((s.data.dropWhile isSpaceChar).reverse.dropWhile isSpaceChar).reverse)

/-- Python truthiness of a string: non-empty. -/
def strNonEmpty (s : String) : Bool :=
  !s.data.isEmpty

/-- ASCII lower-casing of one character code (Python str.lower restricted
to ASCII). -/
def lowerCode (n : Nat) : Nat :=
  if 65 ≤ n && n ≤ 90 then n + 32 else n

/-- Case-insensitive key of a name: lower-cased character codes. -/
def lowerKey (s : String) : List Nat :=
  s.data.map (fun c => lowerCode c.val.toNat)

/-- Raw character codes of a name (case-sensitive ordering key). -/
def rawKey (s : String) : List Nat :=
  s.data.map (fun c => c.val.toNat)

/-- istartswith on the first character of the query string: the field
starts, case-insensitively, with that character. -/
def iStartsWithHead (field q : String) : Bool :=
  match q.data, field.data with
  | [], _ => true
  | _ :: _, [] => false
  | c :: _, d :: _ => lowerCode d.val.toNat == lowerCode c.val.toNat

/-- views._name_similarity in thousandths: 0 for blank inputs, otherwise
the partial-ratio metric (in [0, 100]) divided by 100, i.e. 10 * ratio at
this scale. -/
def _name_similarity (fuzzRatio : String → String → Int) (a b : String) : Int :=
  let a := pyStrip a
  let b := pyStrip b
  if !strNonEmpty a || !strNonEmpty b then 0
  else 10 * fuzzRatio a b

/-- The combined match score of one candidate, in ten-thousandths:
0.6 * last + 0.4 * first when both names are queried, else the single
available similarity. -/
def matchScore (fuzzRatio : String → String → Int) (first_name_q last_name_q : String)
    (s : Student) : Int :=
  let last_sim := if strNonEmpty last_name_q then
    _name_similarity fuzzRatio last_name_q s.last_name else 0
  let first_sim := if strNonEmpty first_name_q then
    _name_similarity fuzzRatio first_name_q s.first_name else 0
  if strNonEmpty first_name_q && strNonEmpty last_name_q then
    6 * last_sim + 4 * first_sim
  else if strNonEmpty last_name_q then 10 * last_sim
  else if strNonEmpty first_name_q then 10 * first_sim
  else 0

/-- MIN_SCORE = 0.8, in ten-thousandths. -/
def MIN_SCORE : Int := 8000

/-- Strict lexicographic comparison of code lists. -/
def natListLt : List Nat → List Nat → Bool
  | [], [] => false
  | [], _ :: _ => true
  | _ :: _, [] => false
  | a :: as, b :: bs => a < b || (a == b && natListLt as bs)

/-- Reflexive lexicographic comparison of code lists. -/
def natListLe (a b : List Nat) : Bool :=
  natListLt a b || a == b

/-- Lexicographic comparison of (last name key, first name key) pairs. -/
def nameKeyLe (l1 f1 l2 f2 : List Nat) : Bool :=
  natListLt l1 l2 || (l1 == l2 && natListLe f1 f2)

/-- order_by("last_name", "first_name") on students, as a propositional
relation for sorting. -/
def nameOrder (a b : Student) : Prop :=
  nameKeyLe (rawKey a.last_name) (rawKey a.first_name)
    (rawKey b.last_name) (rawKey b.first_name) = true

instance : DecidableRel nameOrder := fun a b => by
  unfold nameOrder; infer_instance

/-- The Python sort key (-score, last name lower-cased, first name
lower-cased), ascending, as a propositional relation on scored rows. -/
def scoreOrder (x y : Int × Student) : Prop :=
  (if y.1 < x.1 then true
   else if x.1 < y.1 then false
   else
     nameKeyLe (lowerKey x.2.last_name) (lowerKey x.2.first_name)
       (lowerKey y.2.last_name) (lowerKey y.2.first_name)) = true

instance : DecidableRel scoreOrder := fun x y => by
  unfold scoreOrder; infer_instance

/-- views.student_matches: the scored result list (score, student) that the
endpoint serialises, produced from the student table, the two name queries
and the optional exact date of birth. -/
def student_matches (fuzzRatio : String → String → Int) (db : DB)
    (first_name_raw last_name_raw : String) (date_of_birth : Option Nat) :
    List (Int × Student) :=
  let first_name_q := pyStrip first_name_raw
  let last_name_q := pyStrip last_name_raw
  let qs := db.students
  let qs := match date_of_birth with
    | some d => qs.filter (fun s => s.date_of_birth == some d)
    | none => qs
  let qs := if strNonEmpty last_name_q then
    qs.filter (fun s => iStartsWithHead s.last_name last_name_q) else qs
  let qs := if strNonEmpty first_name_q then
    qs.filter (fun s => iStartsWithHead s.first_name first_name_q) else qs
  let candidates := (List.insertionSort nameOrder qs).take 200
  let results_scored := candidates.map (fun s =>
    (matchScore fuzzRatio first_name_q last_name_q s, s))
  let results_scored := results_scored.filter (fun x => MIN_SCORE ≤ x.1)
  let results_scored := List.insertionSort scoreOrder results_scored
  results_scored.take 10

/-! ## Lemmas: comparators -/

theorem optDateLt_trans {a b c : Option Nat} (h1 : optDateLt a b = true)
    (h2 : optDateLt b c = true) : optDateLt a c = true := by
  cases a <;> cases b <;> cases c <;> simp_all [optDateLt] <;> omega

theorem optDateLt_connex {a b : Option Nat} (h1 : optDateLt a b = false)
    (h2 : optDateLt b a = false) : a = b := by
  cases a <;> cases b <;> simp_all [optDateLt] <;> omega

theorem keyTripleLt_irrefl (a : Nat × Option Nat × Nat) : keyTripleLt a a = false := by
  obtain ⟨a1, a2, a3⟩ := a
  cases a2 <;> simp [keyTripleLt, optDateLt]

theorem keyTripleLt_trans {a b c : Nat × Option Nat × Nat}
    (h1 : keyTripleLt a b = true) (h2 : keyTripleLt b c = true) :
    keyTripleLt a c = true := by
  obtain ⟨a1, a2, a3⟩ := a
  obtain ⟨b1, b2, b3⟩ := b
  obtain ⟨c1, c2, c3⟩ := c
  cases a2 <;> cases b2 <;> cases c2 <;>
    simp_all [keyTripleLt, optDateLt] <;> omega

theorem keyTripleLt_connex {a b : Nat × Option Nat × Nat}
    (h1 : keyTripleLt a b = false) (h2 : keyTripleLt b a = false) : a = b := by
  obtain ⟨a1, a2, a3⟩ := a
  obtain ⟨b1, b2, b3⟩ := b
  cases a2 <;> cases b2 <;> simp_all [keyTripleLt, optDateLt] <;> omega

theorem enrolmentKeyLt_irrefl (a : StudentSchoolEnrolment) :
    enrolmentKeyLt a a = false := by
  simp [enrolmentKeyLt, keyTripleLt_irrefl]

theorem enrolmentKeyLt_trans {a b c : StudentSchoolEnrolment}
    (h1 : enrolmentKeyLt a b = true) (h2 : enrolmentKeyLt b c = true) :
    enrolmentKeyLt a c = true :=
  keyTripleLt_trans h1 h2

theorem enrolmentKey_eq_of_not_lt {a b : StudentSchoolEnrolment}
    (h1 : enrolmentKeyLt a b = false) (h2 : enrolmentKeyLt b a = false) :
    enrolmentKey a = enrolmentKey b :=
  keyTripleLt_connex h1 h2

theorem natListLt_irrefl (a : List Nat) : natListLt a a = false := by
  induction a with
  | nil => simp [natListLt]
  | cons x xs ih => simp [natListLt, ih]

theorem natListLt_trans {a : List Nat} : ∀ {b c : List Nat},
    natListLt a b = true → natListLt b c = true → natListLt a c = true := by
  induction a with
  | nil =>
    intro b c h1 h2
    cases b <;> cases c <;> simp_all [natListLt]
  | cons x xs ih =>
    intro b c h1 h2
    cases b with
    | nil => simp [natListLt] at h1
    | cons y ys =>
      cases c with
      | nil => simp [natListLt] at h2
      | cons z zs =>
        simp only [natListLt, Bool.or_eq_true, Bool.and_eq_true,
          decide_eq_true_eq, beq_iff_eq] at h1 h2 ⊢
        rcases h1 with h1 | ⟨rfl, h1⟩
        · rcases h2 with h2 | ⟨rfl, h2⟩
          · exact Or.inl (by omega)
          · exact Or.inl h1
        · rcases h2 with h2 | ⟨rfl, h2⟩
          · exact Or.inl h2
          · exact Or.inr ⟨rfl, ih h1 h2⟩

theorem natListLt_trichotomy (a : List Nat) : ∀ b : List Nat,
    natListLt a b = true ∨ a = b ∨ natListLt b a = true := by
  induction a with
  | nil =>
    intro b
    cases b <;> simp [natListLt]
  | cons x xs ih =>
    intro b
    cases b with
    | nil => simp [natListLt]
    | cons y ys =>
      rcases Nat.lt_trichotomy x y with h | h | h
      · exact Or.inl (by simp [natListLt, h])
      · subst h
        rcases ih ys with h2 | h2 | h2
        · exact Or.inl (by simp [natListLt, h2])
        · exact Or.inr (Or.inl (by rw [h2]))
        · exact Or.inr (Or.inr (by simp [natListLt, h2]))
      · exact Or.inr (Or.inr (by simp [natListLt, h]))

theorem natListLe_total (a b : List Nat) :
    natListLe a b = true ∨ natListLe b a = true := by
  rcases natListLt_trichotomy a b with h | h | h
  · exact Or.inl (by simp [natListLe, h])
  · exact Or.inl (by simp [natListLe, h])
  · exact Or.inr (by simp [natListLe, h])

theorem natListLe_trans {a b c : List Nat}
    (h1 : natListLe a b = true) (h2 : natListLe b c = true) :
    natListLe a c = true := by
  simp only [natListLe, Bool.or_eq_true, beq_iff_eq] at h1 h2 ⊢
  rcases h1 with h1 | rfl
  · rcases h2 with h2 | rfl
    · exact Or.inl (natListLt_trans h1 h2)
    · exact Or.inl h1
  · exact h2

theorem nameKeyLe_total (l1 f1 l2 f2 : List Nat) :
    nameKeyLe l1 f1 l2 f2 = true ∨ nameKeyLe l2 f2 l1 f1 = true := by
  rcases natListLt_trichotomy l1 l2 with h | h | h
  · exact Or.inl (by simp [nameKeyLe, h])
  · subst h
    rcases natListLe_total f1 f2 with h2 | h2
    · exact Or.inl (by simp [nameKeyLe, h2])
    · exact Or.inr (by simp [nameKeyLe, h2])
  · exact Or.inr (by simp [nameKeyLe, h])

theorem nameKeyLe_trans {l1 f1 l2 f2 l3 f3 : List Nat}
    (h1 : nameKeyLe l1 f1 l2 f2 = true) (h2 : nameKeyLe l2 f2 l3 f3 = true) :
    nameKeyLe l1 f1 l3 f3 = true := by
  simp only [nameKeyLe, Bool.or_eq_true, Bool.and_eq_true, beq_iff_eq] at h1 h2 ⊢
  rcases h1 with h1 | ⟨rfl, h1⟩
  · rcases h2 with h2 | ⟨rfl, h2⟩
    · exact Or.inl (natListLt_trans h1 h2)
    · exact Or.inl h1
  · rcases h2 with h2 | ⟨rfl, h2⟩
    · exact Or.inl h2
    · exact Or.inr ⟨rfl, natListLe_trans h1 h2⟩

/-! ## Lemmas: latest enrolment selection -/

theorem foldl_laterEnrolment_mem (l : List StudentSchoolEnrolment)
    (acc : StudentSchoolEnrolment) :
    l.foldl laterEnrolment acc = acc ∨ l.foldl laterEnrolment acc ∈ l := by
  induction l generalizing acc with
  | nil => simp
  | cons x xs ih =>
    simp only [List.foldl_cons]
    by_cases hlt : enrolmentKeyLt acc x = true
    · have hy : laterEnrolment acc x = x := by simp [laterEnrolment, hlt]
      rw [hy]
      rcases ih x with h | h
      · right
        rw [h]
        exact List.mem_cons_self x xs
      · right
        exact List.mem_cons_of_mem x h
    · have hy : laterEnrolment acc x = acc := by simp [laterEnrolment, hlt]
      rw [hy]
      rcases ih acc with h | h
      · exact Or.inl h
      · right
        exact List.mem_cons_of_mem x h

theorem foldl_laterEnrolment_not_lt (l : List StudentSchoolEnrolment)
    (acc : StudentSchoolEnrolment) :
    enrolmentKeyLt (l.foldl laterEnrolment acc) acc = false ∧
      ∀ x ∈ l, enrolmentKeyLt (l.foldl laterEnrolment acc) x = false := by
  induction l generalizing acc with
  | nil =>
    refine ⟨enrolmentKeyLt_irrefl acc, ?_⟩
    intro x hx
    simp at hx
  | cons y ys ih =>
    simp only [List.foldl_cons]
    by_cases hlt : enrolmentKeyLt acc y = true
    · have hy : laterEnrolment acc y = y := by
        unfold laterEnrolment
        simp [hlt]
      rw [hy]
      obtain ⟨h1, h2⟩ := ih y
      refine ⟨?_, ?_⟩
      · by_contra hc
        rw [Bool.not_eq_false] at hc
        have : enrolmentKeyLt (ys.foldl laterEnrolment y) y = true :=
          enrolmentKeyLt_trans hc hlt
        rw [h1] at this
        exact Bool.false_ne_true this
      · intro x hx
        rcases List.mem_cons.mp hx with rfl | hx
        · exact h1
        · exact h2 x hx
    · have hy : laterEnrolment acc y = acc := by
        unfold laterEnrolment
        simp [hlt]
      rw [hy]
      obtain ⟨h1, h2⟩ := ih acc
      have hlt' : enrolmentKeyLt acc y = false := by
        cases h : enrolmentKeyLt acc y
        · rfl
        · exact absurd h hlt
      refine ⟨h1, ?_⟩
      intro x hx
      rcases List.mem_cons.mp hx with rfl | hx
      · by_contra hc
        rw [Bool.not_eq_false] at hc
        by_cases hyx : enrolmentKeyLt x acc = true
        · have : enrolmentKeyLt (ys.foldl laterEnrolment acc) acc = true :=
            enrolmentKeyLt_trans hc hyx
          rw [h1] at this
          exact Bool.false_ne_true this
        · have hyx' : enrolmentKeyLt x acc = false := by
            cases h : enrolmentKeyLt x acc
            · rfl
            · exact absurd h hyx
          have hkey : enrolmentKey acc = enrolmentKey x :=
            enrolmentKey_eq_of_not_lt hlt' hyx'
          have : enrolmentKeyLt (ys.foldl laterEnrolment acc) acc = true := by
            unfold enrolmentKeyLt at hc ⊢
            rw [hkey]
            exact hc
          rw [h1] at this
          exact Bool.false_ne_true this
      · exact h2 x hx

theorem latestEnrolment_spec {l : List StudentSchoolEnrolment} (h : l ≠ []) :
    ∃ m, latestEnrolment l = some m ∧ m ∈ l ∧
      ∀ x ∈ l, enrolmentKeyLt m x = false := by
  cases l with
  | nil => exact absurd rfl h
  | cons e es =>
    refine ⟨es.foldl laterEnrolment e, rfl, ?_, ?_⟩
    · rcases foldl_laterEnrolment_mem es e with h1 | h1
      · rw [h1]
        exact List.mem_cons_self e es
      · exact List.mem_cons_of_mem e h1
    · obtain ⟨h1, h2⟩ := foldl_laterEnrolment_not_lt es e
      intro x hx
      rcases List.mem_cons.mp hx with rfl | hx
      · exact h1
      · exact h2 x hx

/-! ## Lemmas: sort relations of the matcher -/

theorem scoreOrder_iff {x y : Int × Student} :
    scoreOrder x y ↔
      (y.1 < x.1 ∨ (x.1 = y.1 ∧
        nameKeyLe (lowerKey x.2.last_name) (lowerKey x.2.first_name)
          (lowerKey y.2.last_name) (lowerKey y.2.first_name) = true)) := by
  unfold scoreOrder
  by_cases h1 : y.1 < x.1
  · simp [h1]
  · by_cases h2 : x.1 < y.1
    · have hne : ¬ x.1 = y.1 := by omega
      simp [h1, h2, hne]
    · have heq : x.1 = y.1 := by omega
      simp [h1, h2, heq]

theorem scoreOrder_trans {x y z : Int × Student}
    (h1 : scoreOrder x y) (h2 : scoreOrder y z) : scoreOrder x z := by
  rw [scoreOrder_iff] at h1 h2 ⊢
  rcases h1 with h1 | ⟨he1, h1⟩
  · rcases h2 with h2 | ⟨he2, h2⟩
    · exact Or.inl (by omega)
    · exact Or.inl (by omega)
  · rcases h2 with h2 | ⟨he2, h2⟩
    · exact Or.inl (by omega)
    · exact Or.inr ⟨by omega, nameKeyLe_trans h1 h2⟩

theorem scoreOrder_total (x y : Int × Student) : scoreOrder x y ∨ scoreOrder y x := by
  rw [scoreOrder_iff, scoreOrder_iff]
  rcases Int.lt_trichotomy x.1 y.1 with h | h | h
  · exact Or.inr (Or.inl h)
  · rcases nameKeyLe_total (lowerKey x.2.last_name) (lowerKey x.2.first_name)
        (lowerKey y.2.last_name) (lowerKey y.2.first_name) with h2 | h2
    · exact Or.inl (Or.inr ⟨h, h2⟩)
    · exact Or.inr (Or.inr ⟨h.symm, h2⟩)
  · exact Or.inl (Or.inl h)

theorem nameOrder_trans {x y z : Student} (h1 : nameOrder x y) (h2 : nameOrder y z) :
    nameOrder x z :=
  nameKeyLe_trans h1 h2

theorem nameOrder_total (x y : Student) : nameOrder x y ∨ nameOrder y x :=
  nameKeyLe_total _ _ _ _

/-! ## Lemmas: roles -/

theorem is_admin_auth {u : AuthUser} (h : is_admin u = true) :
    u.is_authenticated = true := by
  by_contra hc
  have : u.is_authenticated = false := by
    cases hh : u.is_authenticated
    · rfl
    · exact absurd hh hc
  simp [is_admin, this] at h

theorem superuser_false_of_not_admin {u : AuthUser}
    (hauth : u.is_authenticated = true) (h : is_admin u = false) :
    u.is_superuser = false := by
  cases hs : u.is_superuser
  · rfl
  · simp [is_admin, hauth, hs] at h

/-! ## Lemmas: matcher membership plumbing -/

theorem student_matches_mem {f : String → String → Int} {db : DB}
    {fr lr : String} {dob : Option Nat} {x : Int × Student}
    (hx : x ∈ student_matches f db fr lr dob) :
    MIN_SCORE ≤ x.1 ∧
      x.1 = matchScore f (pyStrip fr) (pyStrip lr) x.2 ∧
      x.2 ∈ db.students ∧
      ∀ d, dob = some d → x.2.date_of_birth = some d := by
  simp only [student_matches] at hx
  have hx1 := List.take_subset _ _ hx
  have hx2 := (List.perm_insertionSort scoreOrder _).mem_iff.mp hx1
  rw [List.mem_filter] at hx2
  obtain ⟨hmem, hmin⟩ := hx2
  rw [List.mem_map] at hmem
  obtain ⟨s, hs, hsx⟩ := hmem
  subst hsx
  have hcand := List.take_subset _ _ hs
  have hqs := (List.perm_insertionSort nameOrder _).mem_iff.mp hcand
  have hq2 : s ∈
      (match dob with
        | some d => db.students.filter (fun t : Student => t.date_of_birth == some d)
        | none => db.students) := by
    by_cases hif2 : strNonEmpty (pyStrip fr) = true
    · by_cases hif1 : strNonEmpty (pyStrip lr) = true
      · rw [if_pos hif2, if_pos hif1] at hqs
        exact List.mem_of_mem_filter (List.mem_of_mem_filter hqs)
      · rw [if_pos hif2, if_neg hif1] at hqs
        exact List.mem_of_mem_filter hqs
    · by_cases hif1 : strNonEmpty (pyStrip lr) = true
      · rw [if_neg hif2, if_pos hif1] at hqs
        exact List.mem_of_mem_filter hqs
      · rw [if_neg hif2, if_neg hif1] at hqs
        exact hqs
  refine ⟨by simpa using hmin, rfl, ?_, ?_⟩
  · show s ∈ db.students
    cases dob with
    | none => exact hq2
    | some d => exact List.mem_of_mem_filter hq2
  · intro d hd
    subst hd
    simp only [List.mem_filter] at hq2
    exact beq_iff_eq.mp hq2.2

/-! ## Lemmas: row-level access as school intersection -/

theorem staff_access_iff {db : DB} {u : AuthUser} {staff : SchoolStaff}
    (hauth : u.is_authenticated = true) (hsup : u.is_superuser = false)
    (hadm : is_admin u = false) :
    user_has_school_access_to_staff db u staff = true ↔
      ∃ s ∈ get_user_schools db staff.user, ∃ t ∈ get_user_schools db u, t.pk = s.pk := by
  unfold user_has_school_access_to_staff
  rw [hauth, hsup, hadm]
  simp only [Bool.not_true, Bool.false_eq_true, if_false, Bool.or_self]
  cases hue : (get_user_schools db u).isEmpty
  · cases hse : (get_user_schools db staff.user).isEmpty
    · simp only [hue, hse, Bool.false_eq_true, if_false]
      simp [List.any_eq_true, beq_iff_eq]
    · rw [List.isEmpty_iff] at hse
      simp [hue, hse]
  · rw [List.isEmpty_iff] at hue
    simp [hue]

theorem student_access_iff {db : DB} {today : Nat} {u : AuthUser} {st : Student}
    (hauth : u.is_authenticated = true) (hsup : u.is_superuser = false)
    (hadm : is_admin u = false) :
    user_has_school_access_to_student db today u st = true ↔
      ∃ sp ∈ get_effective_student_schools db today st,
        ∃ t ∈ get_user_schools db u, t.pk = sp := by
  unfold user_has_school_access_to_student
  rw [hauth, hsup, hadm]
  simp only [Bool.not_true, Bool.false_eq_true, if_false, Bool.or_self]
  cases hue : (get_user_schools db u).isEmpty
  · cases hse : (get_effective_student_schools db today st).isEmpty
    · simp only [hue, hse, Bool.false_eq_true, if_false]
      simp [List.any_eq_true, beq_iff_eq]
    · rw [List.isEmpty_iff] at hse
      simp [hue, hse]
  · rw [List.isEmpty_iff] at hue
    simp [hue]

/-! ## Lemmas: form validation -/

theorem validateGroupChoices_false_of_not_allowed {allowed submitted : List String}
    {g : String} (h1 : g ∈ submitted) (h2 : allowed.contains g = false) :
    validateGroupChoices allowed submitted = false := by
  unfold validateGroupChoices
  cases hall : submitted.all (fun x => allowed.contains x)
  · simp
  · exfalso
    have := List.all_eq_true.mp hall g h1
    rw [h2] at this
    exact Bool.false_ne_true this

/-! ## Claim theorems -/

/-- C8: SchoolStaffAssignment.is_active is true exactly when end_date is
null; it does not read start_date or any current date (the embedded
definition takes no date input at all), and setting any non-null end_date,
past or future, makes it false. -/
theorem assignment_active_flag_semantics (a : SchoolStaffAssignment) :
    (assignment_is_active a = true ↔ a.end_date = none) ∧
      (∀ sd, assignment_is_active { a with start_date := sd } = assignment_is_active a) ∧
      (∀ d, assignment_is_active { a with end_date := some d } = false) := by
  refine ⟨?_, fun sd => rfl, fun d => rfl⟩
  simp [assignment_is_active, Option.isNone_iff_eq_none]

/-- C10: for every user and student, edit permission implies view
permission and delete permission implies edit permission. -/
theorem student_capability_monotonicity (db : DB) (today : Nat) (u : AuthUser)
    (st : Student) :
    (can_edit_student db today u st = true → can_view_student db today u st = true) ∧
      (can_delete_student u st = true → can_edit_student db today u st = true) := by
  constructor
  · intro h
    cases hauth : u.is_authenticated
    · simp [can_edit_student, hauth] at h
    · by_cases hadm : (u.is_superuser || is_admin u) = true
      · simp [can_view_student, hauth, hadm]
      · by_cases hrole : (is_school_admin u || is_teacher u) = true
        · simp only [can_edit_student, hauth, Bool.not_true, Bool.false_eq_true,
            if_false, hadm, hrole, if_true] at h
          by_cases hss : is_system_staff u = true
          · simp [can_view_student, hauth, hss]
          · have hrole' : (is_school_admin u || is_school_staff u || is_teacher u) = true := by
              cases h1 : is_school_admin u
              · cases h2 : is_teacher u
                · rw [h1, h2] at hrole
                  simp at hrole
                · simp [h2]
              · simp [h1]
            simp only [can_view_student, hauth, Bool.not_true, Bool.false_eq_true,
              if_false, hrole', if_true, h]
            have hadm' : (u.is_superuser || is_admin u || is_system_staff u) = false := by
              cases h1 : u.is_superuser <;> cases h2 : is_admin u <;>
                cases h3 : is_system_staff u <;> simp_all
            simp [hadm']
        · simp [can_edit_student, hauth, hadm, hrole] at h
  · intro h
    cases hauth : u.is_authenticated
    · simp [can_delete_student, hauth] at h
    · simp only [can_delete_student, hauth, Bool.not_true, Bool.false_eq_true,
        if_false] at h
      simp [can_edit_student, hauth, h]

/-- C10 witness: a concrete admin user can edit and hence view, can delete
and hence edit. -/
theorem student_capability_monotonicity_witness :
    can_view_student ⟨[], [], [], [], []⟩ 0 ⟨1, true, false, ["Admins"]⟩
        ⟨1, "John", "Smith", none, none⟩ = true ∧
      can_edit_student ⟨[], [], [], [], []⟩ 0 ⟨1, true, false, ["Admins"]⟩
        ⟨1, "John", "Smith", none, none⟩ = true :=
  ⟨(student_capability_monotonicity ⟨[], [], [], [], []⟩ 0 ⟨1, true, false, ["Admins"]⟩
      ⟨1, "John", "Smith", none, none⟩).1 (by decide),
    (student_capability_monotonicity ⟨[], [], [], [], []⟩ 0 ⟨1, true, false, ["Admins"]⟩
      ⟨1, "John", "Smith", none, none⟩).2 (by decide)⟩

/-- C1: an is_admin user (superuser, Admins member or System Admins member)
is allowed by every access decision function for staff and students, all
three staff-assignment checks, and both row-level filters return the input
queryset unmodified, for every database state and school affiliation. -/
theorem admin_full_access (db : DB) (today : Nat) (u : AuthUser)
    (staff : SchoolStaff) (st : Student) (a : SchoolStaffAssignment)
    (target : Option EmisSchool) (qs : List AnnotatedStaffRow)
    (qs2 : List AnnotatedStudentRow) (h : is_admin u = true) :
    can_view_staff db u staff = true ∧
      can_view_student db today u st = true ∧
      can_create_student u = true ∧
      can_edit_student db today u st = true ∧
      can_delete_student u st = true ∧
      can_create_staff_assignment db u target = true ∧
      can_edit_staff_assignment db u a = true ∧
      can_delete_staff_assignment db u a = true ∧
      filter_staff_for_user db qs u = qs ∧
      filter_students_for_user db qs2 u = qs2 := by
  have hauth := is_admin_auth h
  refine ⟨?_, ?_, ?_, ?_, ?_, ?_, ?_, ?_, ?_, ?_⟩
  · simp [can_view_staff, hauth, h]
  · simp [can_view_student, hauth, h]
  · simp [can_create_student, hauth, h]
  · simp [can_edit_student, hauth, h]
  · simp [can_delete_student, hauth, h]
  · simp [can_create_staff_assignment, hauth, h]
  · simp [can_edit_staff_assignment, hauth, h]
  · simp [can_delete_staff_assignment, hauth, h]
  · simp [filter_staff_for_user, hauth, h]
  · simp [filter_students_for_user, hauth, h]

/-- C1 witness: a concrete Admins-group user with no school affiliation is
allowed everywhere and sees unfiltered lists. -/
theorem admin_full_access_witness :
    is_admin ⟨1, true, false, ["Admins"]⟩ = true ∧
      can_view_staff ⟨[], [], [], [], []⟩ ⟨1, true, false, ["Admins"]⟩
        ⟨1, ⟨2, true, false, []⟩, "teaching"⟩ = true ∧
      filter_staff_for_user ⟨[], [], [], [], []⟩ [⟨⟨1, ⟨2, true, false, []⟩, "teaching"⟩, some 101⟩]
        ⟨1, true, false, ["Admins"]⟩ = [⟨⟨1, ⟨2, true, false, []⟩, "teaching"⟩, some 101⟩] :=
  ⟨by decide,
    (admin_full_access ⟨[], [], [], [], []⟩ 0 ⟨1, true, false, ["Admins"]⟩
      ⟨1, ⟨2, true, false, []⟩, "teaching"⟩ ⟨1, "John", "Smith", none, none⟩
      ⟨1, 1, 1, 1, none, none⟩ none [⟨⟨1, ⟨2, true, false, []⟩, "teaching"⟩, some 101⟩] []
      (by decide)).1,
    (admin_full_access ⟨[], [], [], [], []⟩ 0 ⟨1, true, false, ["Admins"]⟩
      ⟨1, ⟨2, true, false, []⟩, "teaching"⟩ ⟨1, "John", "Smith", none, none⟩
      ⟨1, 1, 1, 1, none, none⟩ none [⟨⟨1, ⟨2, true, false, []⟩, "teaching"⟩, some 101⟩] []
      (by decide)).2.2.2.2.2.2.2.2.1⟩

/-- C2 counterexample: a System Staff member holding no school-scoped role
and no admin role is granted staff and student view by the source, whereas
the claim as stated says view is never allowed for such a user. -/
theorem school_scoped_view_rule_counterexample :
    (⟨1, true, false, ["System Staff"]⟩ : AuthUser).is_authenticated = true ∧
      is_admin ⟨1, true, false, ["System Staff"]⟩ = false ∧
      (⟨1, true, false, ["System Staff"]⟩ : AuthUser).is_superuser = false ∧
      is_school_admin ⟨1, true, false, ["System Staff"]⟩ = false ∧
      is_school_staff ⟨1, true, false, ["System Staff"]⟩ = false ∧
      is_teacher ⟨1, true, false, ["System Staff"]⟩ = false ∧
      can_view_staff ⟨[], [], [], [], []⟩ ⟨1, true, false, ["System Staff"]⟩
        ⟨1, ⟨2, true, false, []⟩, "teaching"⟩ = true ∧
      can_view_student ⟨[], [], [], [], []⟩ 0 ⟨1, true, false, ["System Staff"]⟩
        ⟨1, "John", "Smith", none, none⟩ = true := by
  decide

/-- C2 (amended): for every authenticated user that is not an
admin/superuser and also not a System Staff member, staff and student view
are decided by non-empty intersection of the user affiliation with the
target effective schools when the user holds a school-scoped role, and are
always denied otherwise.  (Amendment: the original claim omitted the
System Staff exclusion; System Staff members get system-wide view.) -/
theorem school_scoped_view_rule (db : DB) (today : Nat) (u : AuthUser)
    (staff : SchoolStaff) (st : Student)
    (hauth : u.is_authenticated = true)
    (hadm : is_admin u = false)
    (hss : is_system_staff u = false) :
    ((is_school_admin u || is_school_staff u || is_teacher u) = true →
      ((can_view_staff db u staff = true ↔
          ∃ s ∈ get_user_schools db staff.user,
            ∃ t ∈ get_user_schools db u, t.pk = s.pk) ∧
        (can_view_student db today u st = true ↔
          ∃ sp ∈ get_effective_student_schools db today st,
            ∃ t ∈ get_user_schools db u, t.pk = sp))) ∧
    ((is_school_admin u || is_school_staff u || is_teacher u) = false →
      can_view_staff db u staff = false ∧ can_view_student db today u st = false) := by
  have hsup := superuser_false_of_not_admin hauth hadm
  constructor
  · intro hrole
    constructor
    · rw [← staff_access_iff hauth hsup hadm]
      simp [can_view_staff, hauth, hsup, hadm, hss, hrole]
    · rw [← student_access_iff hauth hsup hadm]
      simp [can_view_student, hauth, hsup, hadm, hss, hrole]
  · intro hrole
    constructor
    · simp [can_view_staff, hauth, hsup, hadm, hss, hrole]
    · simp [can_view_student, hauth, hsup, hadm, hss, hrole]

/-- C2 witness: a Teacher sharing school 1 with a staff member is granted
view through the intersection rule. -/
theorem school_scoped_view_rule_witness :
    can_view_staff
        ⟨[⟨1, 101, "Alpha", true⟩],
          [⟨1, ⟨2, true, false, ["Teachers"]⟩, "teaching"⟩,
            ⟨2, ⟨5, true, false, ["School Staff"]⟩, "teaching"⟩],
          [⟨1, 1, 1, 1, none, none⟩, ⟨2, 2, 1, 1, none, none⟩], [], []⟩
        ⟨2, true, false, ["Teachers"]⟩
        ⟨2, ⟨5, true, false, ["School Staff"]⟩, "teaching"⟩ = true :=
  (((school_scoped_view_rule
      ⟨[⟨1, 101, "Alpha", true⟩],
        [⟨1, ⟨2, true, false, ["Teachers"]⟩, "teaching"⟩,
          ⟨2, ⟨5, true, false, ["School Staff"]⟩, "teaching"⟩],
        [⟨1, 1, 1, 1, none, none⟩, ⟨2, 2, 1, 1, none, none⟩], [], []⟩
      0 ⟨2, true, false, ["Teachers"]⟩
      ⟨2, ⟨5, true, false, ["School Staff"]⟩, "teaching"⟩
      ⟨1, "John", "Smith", none, none⟩
      (by decide) (by decide) (by decide)).1 (by decide)).1).mpr (by decide)

/-- C4: a school-scoped-role user who is not a superuser, not an admin and
not System Staff, and whose affiliation is empty, receives an empty staff
and student list for any non-empty input queryset; a user with no
qualifying role receives an empty list as well (the filters are total
functions, never errors). -/
theorem empty_affiliation_empty_lists (db : DB) (u : AuthUser)
    (qs : List AnnotatedStaffRow) (qs2 : List AnnotatedStudentRow)
    (hsup : u.is_superuser = false) (hadm : is_admin u = false)
    (hss : is_system_staff u = false) :
    ((is_school_admin u || is_school_staff u || is_teacher u) = true →
      get_user_schools db u = [] →
      (qs ≠ [] → filter_staff_for_user db qs u = []) ∧
      (qs2 ≠ [] → filter_students_for_user db qs2 u = [])) ∧
    ((is_school_admin u || is_school_staff u || is_teacher u) = false →
      filter_staff_for_user db qs u = [] ∧ filter_students_for_user db qs2 u = []) := by
  constructor
  · intro hrole hempty
    have hauth : u.is_authenticated = true := by
      cases hauth : u.is_authenticated
      · exfalso
        simp [is_school_admin, is_school_staff, is_teacher, _in_group, hauth] at hrole
      · rfl
    refine ⟨fun _ => ?_, fun _ => ?_⟩
    · simp [filter_staff_for_user, hauth, hsup, hadm, hss, hrole, hempty]
    · simp [filter_students_for_user, hauth, hsup, hadm, hss, hrole, hempty]
  · intro hrole
    cases hauth : u.is_authenticated
    · exact ⟨by simp [filter_staff_for_user, hauth],
        by simp [filter_students_for_user, hauth]⟩
    · exact ⟨by simp [filter_staff_for_user, hauth, hsup, hadm, hss, hrole],
        by simp [filter_students_for_user, hauth, hsup, hadm, hss, hrole]⟩

/-- C4 witness: a Teacher with a profile but no active assignment sees an
empty staff list even though the input queryset is non-empty. -/
theorem empty_affiliation_empty_lists_witness :
    filter_staff_for_user
        ⟨[⟨1, 101, "Alpha", true⟩], [⟨3, ⟨7, true, false, ["Teachers"]⟩, "teaching"⟩],
          [], [], []⟩
        [⟨⟨1, ⟨2, true, false, []⟩, "teaching"⟩, some 101⟩]
        ⟨7, true, false, ["Teachers"]⟩ = [] :=
  ((empty_affiliation_empty_lists
      ⟨[⟨1, 101, "Alpha", true⟩], [⟨3, ⟨7, true, false, ["Teachers"]⟩, "teaching"⟩],
        [], [], []⟩
      ⟨7, true, false, ["Teachers"]⟩
      [⟨⟨1, ⟨2, true, false, []⟩, "teaching"⟩, some 101⟩] []
      (by decide) (by decide) (by decide)).1 (by decide) (by decide)).1 (by decide)

/-- C7: get_user_schools returns exactly the schools with an assignment
whose end_date is null held through the SchoolStaff profile of the user; it
is empty for users without a profile and for unauthenticated users, and it
never reads the superuser flag or the group memberships. -/
theorem get_user_schools_spec (db : DB) (u : AuthUser) :
    (∀ s : EmisSchool, s ∈ get_user_schools db u ↔
      (u.is_authenticated = true ∧ s ∈ db.schools ∧
        ∃ a ∈ db.assignments, a.school = s.pk ∧ a.end_date = none ∧
          ∃ p ∈ db.school_staffs, p.pk = a.school_staff ∧ p.user.id = u.id)) ∧
    (hasSchoolStaffProfile db u = false → get_user_schools db u = []) ∧
    (u.is_authenticated = false → get_user_schools db u = []) ∧
    (∀ (b : Bool) (gs : List String),
      get_user_schools db { u with is_superuser := b, groups := gs } =
        get_user_schools db u) := by
  refine ⟨?_, ?_, ?_, fun b gs => rfl⟩
  · intro s
    cases hauth : u.is_authenticated
    · simp [get_user_schools, hauth]
    · cases hprof : hasSchoolStaffProfile db u
      · simp only [get_user_schools, hauth, hprof, Bool.not_true, Bool.not_false,
          Bool.false_eq_true, if_false, if_true, List.not_mem_nil, false_iff]
        rintro ⟨-, -, a, ha, -, -, p, hp, -, hpu⟩
        have : hasSchoolStaffProfile db u = true := by
          unfold hasSchoolStaffProfile
          rw [List.any_eq_true]
          exact ⟨p, hp, by simp [hpu]⟩
        rw [hprof] at this
        exact Bool.false_ne_true this
      · simp only [get_user_schools, hauth, hprof, Bool.not_true, Bool.not_false,
          Bool.false_eq_true, if_false, if_true]
        rw [List.mem_filter]
        simp only [List.any_eq_true, Bool.and_eq_true, beq_iff_eq,
          Option.isNone_iff_eq_none, true_and]
        constructor
        · rintro ⟨hmem, a, ha, ⟨hsch, hend⟩, p, hp, hpk, hid⟩
          exact ⟨hmem, a, ha, hsch, hend, p, hp, hpk, hid⟩
        · rintro ⟨hmem, a, ha, hsch, hend, p, hp, hpk, hid⟩
          exact ⟨hmem, a, ha, ⟨hsch, hend⟩, p, hp, hpk, hid⟩
  · intro hprof
    cases hauth : u.is_authenticated
    · simp [get_user_schools, hauth]
    · simp [get_user_schools, hauth, hprof]
  · intro hauth
    simp [get_user_schools, hauth]

/-- C7 witness: the Teacher of the shared-school fixture is affiliated with
school 1, and a user without a profile gets the empty affiliation. -/
theorem get_user_schools_spec_witness :
    (⟨1, 101, "Alpha", true⟩ : EmisSchool) ∈
        get_user_schools
          ⟨[⟨1, 101, "Alpha", true⟩], [⟨1, ⟨2, true, false, ["Teachers"]⟩, "teaching"⟩],
            [⟨1, 1, 1, 1, none, none⟩], [], []⟩
          ⟨2, true, false, ["Teachers"]⟩ ∧
      get_user_schools ⟨[⟨1, 101, "Alpha", true⟩], [], [], [], []⟩
        ⟨9, true, true, ["Admins"]⟩ = [] :=
  ⟨((get_user_schools_spec
      ⟨[⟨1, 101, "Alpha", true⟩], [⟨1, ⟨2, true, false, ["Teachers"]⟩, "teaching"⟩],
        [⟨1, 1, 1, 1, none, none⟩], [], []⟩
      ⟨2, true, false, ["Teachers"]⟩).1 ⟨1, 101, "Alpha", true⟩).mpr (by decide),
    (get_user_schools_spec ⟨[⟨1, 101, "Alpha", true⟩], [], [], [], []⟩
      ⟨9, true, true, ["Admins"]⟩).2.1 (by decide)⟩

/-- C3: with no current enrolment the effective schools are exactly the
school of the strictly latest historical enrolment under the
(school year code, start_date, pk) descending order; such a latest
enrolment exists and is unique whenever the primary keys are distinct;
with current enrolments the result is the distinct set of their schools;
with no enrolment at all it is empty. -/
theorem effective_schools_resolution (db : DB) (today : Nat) (st : Student) :
    (current_enrolments db today st = [] →
      ∀ e ∈ studentEnrolments db st,
        (∀ e2 ∈ studentEnrolments db st, e2 ≠ e → enrolmentKeyLt e2 e = true) →
        get_effective_student_schools db today st = [e.school]) ∧
    (current_enrolments db today st = [] → studentEnrolments db st ≠ [] →
      ((studentEnrolments db st).map (fun e => e.pk)).Nodup →
      ∃ e ∈ studentEnrolments db st,
        (∀ e2 ∈ studentEnrolments db st, e2 = e ∨ enrolmentKeyLt e2 e = true) ∧
        get_effective_student_schools db today st = [e.school]) ∧
    (current_enrolments db today st ≠ [] →
      (∀ x, x ∈ get_effective_student_schools db today st ↔
        ∃ e ∈ current_enrolments db today st, e.school = x) ∧
      (get_effective_student_schools db today st).Nodup) ∧
    (studentEnrolments db st = [] → get_effective_student_schools db today st = []) := by
  refine ⟨?_, ?_, ?_, ?_⟩
  · intro hcur e he hdom
    have hne : studentEnrolments db st ≠ [] := List.ne_nil_of_mem he
    obtain ⟨m, hm_eq, hm_mem, hm_max⟩ := latestEnrolment_spec hne
    have hme : m = e := by
      by_contra hne2
      have h1 := hdom m hm_mem hne2
      have h2 := hm_max e he
      rw [h2] at h1
      exact Bool.false_ne_true h1
    simp only [get_effective_student_schools, hcur, List.isEmpty_nil, Bool.not_true,
      Bool.false_eq_true, if_false, hm_eq, hme]
  · intro hcur hne hnodup
    obtain ⟨m, hm_eq, hm_mem, hm_max⟩ := latestEnrolment_spec hne
    refine ⟨m, hm_mem, ?_, ?_⟩
    · intro e2 he2
      by_cases hlt : enrolmentKeyLt e2 m = true
      · exact Or.inr hlt
      · left
        have hlt' : enrolmentKeyLt e2 m = false := by
          cases h : enrolmentKeyLt e2 m
          · rfl
          · exact absurd h hlt
        have hkey := enrolmentKey_eq_of_not_lt (hm_max e2 he2) hlt'
        have hpk : e2.pk = m.pk := by
          have h3 := congrArg (fun k => k.2.2) hkey
          simpa [enrolmentKey] using h3.symm
        exact List.inj_on_of_nodup_map hnodup he2 hm_mem (by simpa using hpk)
    · simp only [get_effective_student_schools, hcur, List.isEmpty_nil, Bool.not_true,
        Bool.false_eq_true, if_false, hm_eq]
  · intro hcur
    have hie : (current_enrolments db today st).isEmpty = false := by
      cases h : (current_enrolments db today st).isEmpty
      · rfl
      · exact absurd (List.isEmpty_iff.mp h) hcur
    constructor
    · intro x
      simp only [get_effective_student_schools, hie, Bool.not_false, if_true]
      simp [List.mem_dedup, List.mem_map]
    · simp only [get_effective_student_schools, hie, Bool.not_false, if_true]
      exact List.nodup_dedup _
  · intro hall
    have hcur : current_enrolments db today st = [] := by
      unfold current_enrolments
      rw [hall]
      rfl
    simp only [get_effective_student_schools, hcur, hall, List.isEmpty_nil, Bool.not_true,
      Bool.false_eq_true, if_false, latestEnrolment]

/-- C3 witness: a student with two closed enrolments is owned by the school
of the 2025 enrolment, which strictly dominates the 2024 one. -/
theorem effective_schools_resolution_witness :
    get_effective_student_schools
        ⟨[], [], [], [],
          [⟨1, 5, 10, ⟨1, 2024⟩, 1, some 3, some 4⟩,
            ⟨2, 5, 11, ⟨2, 2025⟩, 1, some 3, some 4⟩]⟩
        100 ⟨5, "Ann", "Jones", none, none⟩ = [11] :=
  (effective_schools_resolution
      ⟨[], [], [], [],
        [⟨1, 5, 10, ⟨1, 2024⟩, 1, some 3, some 4⟩,
          ⟨2, 5, 11, ⟨2, 2025⟩, 1, some 3, some 4⟩]⟩
      100 ⟨5, "Ann", "Jones", none, none⟩).1 (by decide)
    ⟨2, 5, 11, ⟨2, 2025⟩, 1, some 3, some 4⟩ (by decide) (by decide)

/-- C5: when an enrolment with the same (student, school, school_year)
triple is already persisted, the enrolment insert raises the uniqueness
violation, the student creation transaction returns the original state
together with the user-facing message (full rollback: no Student row is
left behind), and exactly one row with that triple remains. -/
theorem enrolment_unique_rollback (db : CoreDB) (stu : Student)
    (e : StudentSchoolEnrolment)
    (hcount : (db.enrolments.filter (fun x =>
        x.student == e.student && x.school == e.school &&
          x.school_year.pk == e.school_year.pk)).length = 1) :
    (∃ m, insertEnrolment db e = Except.error m) ∧
      student_new db stu e =
        (db, some "A similar enrolment already exists for that school and school year.") ∧
      ((student_new db stu e).1.enrolments.filter (fun x =>
          x.student == e.student && x.school == e.school &&
            x.school_year.pk == e.school_year.pk)).length = 1 ∧
      (student_new db stu e).1.students = db.students := by
  have hdup : db.enrolments.any (fun x =>
      x.student == e.student && x.school == e.school &&
        x.school_year.pk == e.school_year.pk) = true := by
    have hfil : db.enrolments.filter (fun x =>
        x.student == e.student && x.school == e.school &&
          x.school_year.pk == e.school_year.pk) ≠ [] := by
      intro h
      rw [h] at hcount
      simp at hcount
    obtain ⟨x, hx⟩ := List.exists_mem_of_ne_nil _ hfil
    rw [List.mem_filter] at hx
    rw [List.any_eq_true]
    exact ⟨x, hx.1, hx.2⟩
  have hins : insertEnrolment db e = Except.error "uq_student_school_year" := by
    unfold insertEnrolment
    simp [hdup]
  have hnew : student_new db stu e =
      (db, some "A similar enrolment already exists for that school and school year.") := by
    unfold student_new insertEnrolment
    simp [hdup]
  refine ⟨⟨_, hins⟩, hnew, ?_, ?_⟩
  · rw [hnew]
    exact hcount
  · rw [hnew]

/-- C5 witness: a second enrolment for student 1 at school 1 in year 1
fails, rolls back and leaves the single original row. -/
theorem enrolment_unique_rollback_witness :
    student_new
        ⟨[⟨1, "John", "Smith", none, none⟩], [⟨1, 1, 1, ⟨1, 2025⟩, 1, none, none⟩]⟩
        ⟨2, "Ann", "Jones", none, none⟩ ⟨2, 1, 1, ⟨1, 2025⟩, 2, none, none⟩ =
      (⟨[⟨1, "John", "Smith", none, none⟩], [⟨1, 1, 1, ⟨1, 2025⟩, 1, none, none⟩]⟩,
        some "A similar enrolment already exists for that school and school year.") :=
  (enrolment_unique_rollback
      ⟨[⟨1, "John", "Smith", none, none⟩], [⟨1, 1, 1, ⟨1, 2025⟩, 1, none, none⟩]⟩
      ⟨2, "Ann", "Jones", none, none⟩ ⟨2, 1, 1, ⟨1, 2025⟩, 2, none, none⟩
      (by decide)).2.1

/-- C6: a user who is neither a superuser nor an Admins member (for
instance a School Admin or a System Admin) is never offered the Admins
group by any of the four staff / system-user forms, and any submission
containing the Admins group fails the group-choice validation of those
forms. -/
theorem admins_assignment_ceiling (u : AuthUser) (submitted : List String)
    (hsup : u.is_superuser = false)
    (hmem : GROUP_ADMINS ∉ u.groups) :
    ("Admins" ∉ schoolStaffEditFormGroups (some u) ∧
      "Admins" ∉ assignSchoolStaffFormGroups (some u) ∧
      "Admins" ∉ assignSystemUserFormGroups (some u) ∧
      "Admins" ∉ systemUserEditFormGroups (some u)) ∧
    ("Admins" ∈ submitted →
      validateGroupChoices (schoolStaffEditFormGroups (some u)) submitted = false ∧
      validateGroupChoices (assignSchoolStaffFormGroups (some u)) submitted = false ∧
      validateGroupChoices (assignSystemUserFormGroups (some u)) submitted = false ∧
      validateGroupChoices (systemUserEditFormGroups (some u)) submitted = false) := by
  have hiag : is_admins_group u = false := by
    unfold is_admins_group _in_group
    cases h : u.is_authenticated
    · simp [h]
    · simp [h, hsup, hmem]
  have h1 : schoolStaffEditFormGroups (some u) = ["School Admins", "School Staff", "Teachers"] := by
    simp [schoolStaffEditFormGroups, hiag, hsup]
  have h2 : assignSchoolStaffFormGroups (some u) = ["School Admins", "School Staff", "Teachers"] := by
    simp [assignSchoolStaffFormGroups, can_assign_admins_group, hiag]
  have h3 : assignSystemUserFormGroups (some u) = ["System Admins", "System Staff"] := by
    simp [assignSystemUserFormGroups, can_assign_admins_group, hiag]
  have h4 : systemUserEditFormGroups (some u) = ["System Admins", "System Staff"] := by
    simp [systemUserEditFormGroups, hiag, hsup]
  constructor
  · rw [h1, h2, h3, h4]
    refine ⟨by decide, by decide, by decide, by decide⟩
  · intro hA
    rw [h1, h2, h3, h4]
    exact ⟨validateGroupChoices_false_of_not_allowed hA (by decide),
      validateGroupChoices_false_of_not_allowed hA (by decide),
      validateGroupChoices_false_of_not_allowed hA (by decide),
      validateGroupChoices_false_of_not_allowed hA (by decide)⟩

/-- C6 witness: a School Admins member submitting the Admins group is
rejected by the staff edit form validation. -/
theorem admins_assignment_ceiling_witness :
    validateGroupChoices
        (schoolStaffEditFormGroups (some ⟨6, true, false, ["School Admins"]⟩))
        ["Admins", "Teachers"] = false :=
  ((admins_assignment_ceiling ⟨6, true, false, ["School Admins"]⟩ ["Admins", "Teachers"]
      (by decide) (by decide)).2 (by decide)).1

/-- C9: every result of the fuzzy matcher scores at least 0.80 (8000 at
the 1/10000 scale), carries the documented combined score (0.6/0.4
weighting when both names are queried, the single similarity otherwise),
the list is sorted by descending score then case-insensitive last and
first name, at most 10 results are returned, a supplied birth date is an
exact filter, and the similarity metric is normalised to [0, 1] (0..1000
at the 1/1000 scale) with blank inputs scoring 0. -/
theorem student_matches_contract (f : String → String → Int) (db : DB)
    (fr lr : String) (dob : Option Nat)
    (hf : ∀ a b, 0 ≤ f a b ∧ f a b ≤ 100) :
    (student_matches f db fr lr dob).length ≤ 10 ∧
    (∀ x ∈ student_matches f db fr lr dob, MIN_SCORE ≤ x.1) ∧
    (∀ x ∈ student_matches f db fr lr dob,
      x.1 = matchScore f (pyStrip fr) (pyStrip lr) x.2) ∧
    (strNonEmpty (pyStrip fr) = true → strNonEmpty (pyStrip lr) = true →
      ∀ x ∈ student_matches f db fr lr dob,
        x.1 = 6 * _name_similarity f (pyStrip lr) x.2.last_name +
          4 * _name_similarity f (pyStrip fr) x.2.first_name) ∧
    (strNonEmpty (pyStrip fr) = false → strNonEmpty (pyStrip lr) = true →
      ∀ x ∈ student_matches f db fr lr dob,
        x.1 = 10 * _name_similarity f (pyStrip lr) x.2.last_name) ∧
    (strNonEmpty (pyStrip fr) = true → strNonEmpty (pyStrip lr) = false →
      ∀ x ∈ student_matches f db fr lr dob,
        x.1 = 10 * _name_similarity f (pyStrip fr) x.2.first_name) ∧
    List.Sorted (fun x y : Int × Student =>
        y.1 < x.1 ∨ (x.1 = y.1 ∧
          nameKeyLe (lowerKey x.2.last_name) (lowerKey x.2.first_name)
            (lowerKey y.2.last_name) (lowerKey y.2.first_name) = true))
      (student_matches f db fr lr dob) ∧
    (∀ d, dob = some d → ∀ x ∈ student_matches f db fr lr dob,
      x.2.date_of_birth = some d) ∧
    (∀ a b, 0 ≤ _name_similarity f a b ∧ _name_similarity f a b ≤ 1000 ∧
      ((strNonEmpty (pyStrip a) = false ∨ strNonEmpty (pyStrip b) = false) →
        _name_similarity f a b = 0)) := by
  refine ⟨?_, ?_, ?_, ?_, ?_, ?_, ?_, ?_, ?_⟩
  · simp only [student_matches]
    exact List.length_take_le 10 _
  · intro x hx
    exact (student_matches_mem hx).1
  · intro x hx
    exact (student_matches_mem hx).2.1
  · intro h1 h2 x hx
    rw [(student_matches_mem hx).2.1]
    unfold matchScore
    rw [h1, h2]
    simp
  · intro h1 h2 x hx
    rw [(student_matches_mem hx).2.1]
    unfold matchScore
    rw [h1, h2]
    simp
  · intro h1 h2 x hx
    rw [(student_matches_mem hx).2.1]
    unfold matchScore
    rw [h1, h2]
    simp
  · haveI : IsTrans (Int × Student) scoreOrder := ⟨fun _ _ _ => scoreOrder_trans⟩
    haveI : IsTotal (Int × Student) scoreOrder := ⟨scoreOrder_total⟩
    simp only [student_matches]
    refine List.Pairwise.imp ?_
      (List.Pairwise.sublist (List.take_sublist 10 _)
        (List.sorted_insertionSort scoreOrder _))
    intro a b hab
    exact scoreOrder_iff.mp hab
  · intro d hd x hx
    exact (student_matches_mem hx).2.2.2 d hd
  · intro a b
    unfold _name_similarity
    by_cases h : (!strNonEmpty (pyStrip a) || !strNonEmpty (pyStrip b)) = true
    · rw [if_pos h]
      exact ⟨by omega, by omega, fun _ => rfl⟩
    · rw [if_neg h]
      obtain ⟨hl, hr⟩ := hf (pyStrip a) (pyStrip b)
      refine ⟨by omega, by omega, ?_⟩
      intro hor
      exfalso
      rcases hor with h1 | h1 <;> simp [h1] at h

/-- C9 witness: with a constant metric of 90, querying Jon Smith in a
three-student population returns at most 10 results, all scoring at least
8000. -/
theorem student_matches_contract_witness :
    (student_matches (fun _ _ => 90)
        ⟨[], [], [], [⟨1, "John", "Smith", some 100, none⟩,
          ⟨2, "Jon", "Smithe", some 100, none⟩,
          ⟨3, "Ann", "Jones", some 100, none⟩], []⟩
        "Jon" "Smith" none).length ≤ 10 ∧
      ∀ x ∈ student_matches (fun _ _ => 90)
          ⟨[], [], [], [⟨1, "John", "Smith", some 100, none⟩,
            ⟨2, "Jon", "Smithe", some 100, none⟩,
            ⟨3, "Ann", "Jones", some 100, none⟩], []⟩
          "Jon" "Smith" none, MIN_SCORE ≤ x.1 :=
  ⟨(student_matches_contract (fun _ _ => 90)
      ⟨[], [], [], [⟨1, "John", "Smith", some 100, none⟩,
        ⟨2, "Jon", "Smithe", some 100, none⟩,
        ⟨3, "Ann", "Jones", some 100, none⟩], []⟩
      "Jon" "Smith" none
      (fun _ _ => ⟨show (0 : Int) ≤ 90 by decide, show (90 : Int) ≤ 100 by decide⟩)).1,
    (student_matches_contract (fun _ _ => 90)
      ⟨[], [], [], [⟨1, "John", "Smith", some 100, none⟩,
        ⟨2, "Jon", "Smithe", some 100, none⟩,
        ⟨3, "Ann", "Jones", some 100, none⟩], []⟩
      "Jon" "Smith" none
      (fun _ _ => ⟨show (0 : Int) ≤ 90 by decide, show (90 : Int) ≤ 100 by decide⟩)).2.1⟩
